import Mathlib

/-!
Verification of the hybrid LLM router and telemetry core of
`powerbi-llm-integration` (files
`ba-copilot-addon/backend/app/services/hybrid_router.py` and
`ba-copilot-addon/backend/app/services/metrics.py`).

The Python code is shallowly embedded: enumerations become inductive types,
dataclasses become structures, Python `float` money/latency amounts become
`ℚ`, Python `int` becomes `Int`/`Nat`, and the mutable `HybridMetrics`
object becomes explicit state passing.  Wall-clock quantities (`timestamp`,
measured latency inside `execute`) and log messages are not modelled: no
claim below depends on them.
-/

namespace PowerBIHybrid

/-- `DataSensitivity` enum of `hybrid_router.py`. -/
inductive DataSensitivity where
  | publicData
  | internalData
  | confidential
  | restricted
deriving DecidableEq, Repr

/-- `QueryComplexity` enum of `hybrid_router.py`. -/
inductive QueryComplexity where
  | simple
  | moderate
  | complex
deriving DecidableEq, Repr

/-- `Backend` enum of `hybrid_router.py`. -/
inductive Backend where
  | cortex
  | mistral
  | claude_haiku
  | claude_sonnet
  | claude_opus
deriving DecidableEq, Repr

/-- `QueryContext` dataclass of `hybrid_router.py`. -/
structure QueryContext where
  question : String
  data_source : String
  sensitivity : DataSensitivity
  complexity : QueryComplexity
  requires_iteration : Bool
  estimated_tokens : Int := 0
  user_preference : Option Backend := none
deriving DecidableEq, Repr

/-- `RoutingDecision` dataclass of `hybrid_router.py`. -/
structure RoutingDecision where
  backend : Backend
  reason : String
  estimated_cost : ℚ
  data_exposure : String
deriving DecidableEq, Repr

/-- Router availability state.  The fields are the post-`__init__` values
`self.enable_cortex`, `self.enable_mistral` (each already and-ed with the
presence of the corresponding client), and `claude_available` models
`self.claude is not None`. -/
structure HybridRouter where
  enable_cortex : Bool
  enable_mistral : Bool
  claude_available : Bool
deriving DecidableEq, Repr

/-- `HybridRouter.COSTS`: cost per 1000 tokens for each backend. -/
def COSTS : Backend → ℚ
  | .cortex => 3/1000
  | .mistral => 1/1000
  | .claude_haiku => 3/10000
  | .claude_sonnet => 3/1000
  | .claude_opus => 15/1000

/-- `HybridRouter._is_backend_available`. -/
def isBackendAvailable (r : HybridRouter) : Backend → Bool
  | .cortex => r.enable_cortex
  | .mistral => r.enable_mistral
  | _ => r.claude_available

/-- `HybridRouter._estimate_cost`: a zero token count is replaced by the
default estimate 1000 before dividing by 1000 and scaling by the unit
price. -/
def estimateCost (b : Backend) (tokens : Int) : ℚ :=
  let tokens : Int := if tokens = 0 then 1000 else tokens
  ((tokens : ℚ) / 1000) * COSTS b

/-- `HybridRouter._get_data_exposure`. -/
def getDataExposure (b : Backend) (s : DataSensitivity) : String :=
  if b = .cortex ∨ b = .mistral then "full"
  else if s = .confidential ∨ s = .restricted then "schema_only"
  else if s = .internalData then "aggregated"
  else "full"

/-- Rules 1-4 and the default branch of `HybridRouter.route` (everything
after the user-preference check), transcribed rule by rule. -/
def routeRules (r : HybridRouter) (ctx : QueryContext) : RoutingDecision :=
  -- Rule 1: Data in Snowflake + needs iteration = Cortex
  if ctx.data_source = "snowflake" ∧ ctx.requires_iteration = true ∧
      r.enable_cortex = true then
    { backend := .cortex
      reason := "Snowflake data with iteration - Cortex allows safe full data access"
      estimated_cost := estimateCost .cortex ctx.estimated_tokens
      data_exposure := "full" }
  -- Rule 2: Sensitive data + needs iteration = Self-hosted only
  else if ctx.sensitivity = .confidential ∨ ctx.sensitivity = .restricted then
    if ctx.requires_iteration = true ∧ r.enable_mistral = true then
      { backend := .mistral
        reason := "Sensitive data requiring iteration - only self-hosted is safe"
        estimated_cost := estimateCost .mistral ctx.estimated_tokens
        data_exposure := "full" }
    else if ctx.requires_iteration = true ∧ r.enable_cortex = true ∧
        ctx.data_source = "snowflake" then
      { backend := .cortex
        reason := "Sensitive Snowflake data with iteration - Cortex is safe"
        estimated_cost := estimateCost .cortex ctx.estimated_tokens
        data_exposure := "full" }
    else
      -- Sensitive without iteration (or no safe backend, after a warning):
      -- schema-only API call
      let backend : Backend :=
        if ctx.complexity = .complex then .claude_sonnet else .claude_haiku
      { backend := backend
        reason := "Sensitive data, no iteration - schema-only API call"
        estimated_cost := estimateCost backend ctx.estimated_tokens
        data_exposure := "schema_only" }
  -- Rule 3: Simple queries = Cheapest option
  else if ctx.complexity = .simple then
    if ctx.data_source = "snowflake" ∧ r.enable_cortex = true then
      { backend := .cortex
        reason := "Simple query in Snowflake - native Cortex is efficient"
        estimated_cost := estimateCost .cortex ctx.estimated_tokens
        data_exposure := "full" }
    else
      { backend := .claude_haiku
        reason := "Simple query - Haiku is fastest and cheapest"
        estimated_cost := estimateCost .claude_haiku ctx.estimated_tokens
        data_exposure := "schema_only" }
  -- Rule 4: Complex analysis = Best model
  else if ctx.complexity = .complex then
    if ctx.data_source = "snowflake" ∧ r.enable_cortex = true then
      { backend := .cortex
        reason := "Complex Snowflake analysis - Cortex with Claude for accuracy + data access"
        estimated_cost := estimateCost .cortex ctx.estimated_tokens
        data_exposure := "full" }
    else
      { backend := .claude_opus
        reason := "Complex analysis - Opus 4.5 for highest accuracy (95%+)"
        estimated_cost := estimateCost .claude_opus ctx.estimated_tokens
        data_exposure := if ctx.requires_iteration = true then "aggregated" else "schema_only" }
  -- Default: Balanced option
  else
    { backend := .claude_sonnet
      reason := "Default balanced option - good accuracy and cost"
      estimated_cost := estimateCost .claude_sonnet ctx.estimated_tokens
      data_exposure := "schema_only" }

/-- `HybridRouter.route`: honor an available user preference, otherwise
fall through to the rules. -/
def route (r : HybridRouter) (ctx : QueryContext) : RoutingDecision :=
  match ctx.user_preference with
  | some pref =>
      if isBackendAvailable r pref = true then
        { backend := pref
          reason := "User preference"
          estimated_cost := estimateCost pref ctx.estimated_tokens
          data_exposure := getDataExposure pref ctx.sensitivity }
      else routeRules r ctx
  | none => routeRules r ctx

example :
    (route ⟨true, true, true⟩
      ⟨"q", "snowflake", .internalData, .simple, false, 0, none⟩).backend =
      Backend.cortex := by decide

example :
    (route ⟨false, false, true⟩
      ⟨"q", "other", .restricted, .complex, true, 0, none⟩).data_exposure =
      "schema_only" := by decide

/-- Outcome dictionary of `HybridRouter.execute`.  On success the Python
dict carries result, routing metadata (backend, reason, exposure, cost)
and a measured latency; on failure it carries the error string and only
backend and reason in the routing metadata.  The measured wall-clock
latency is not modelled. -/
structure ExecOutcome where
  success : Bool
  result : Option String
  error : Option String
  backend : Backend
  reason : String
  data_exposure : Option String
  estimated_cost : Option ℚ
deriving DecidableEq, Repr

/-- `QueryMetric` dataclass of `metrics.py`.  The `timestamp` and the
optional `actual_tokens` / `user_id` / `session_id` fields are omitted:
no claim depends on them. -/
structure QueryMetric where
  question : String
  sensitivity : String
  complexity : String
  backend : String
  success : Bool
  iterations : Int
  latency_ms : ℚ
  estimated_cost : ℚ
deriving DecidableEq, Repr

/-- State of a `HybridMetrics` instance: the retained query list, the
`max_history` bound, and the running counters `_total_cost`,
`_query_count`, `_success_count`. -/
structure HybridMetrics where
  queries : List QueryMetric
  max_history : ℕ
  total_cost : ℚ
  query_count : ℕ
  success_count : ℕ
deriving DecidableEq, Repr

/-- A fresh `HybridMetrics(max_history)` instance. -/
def HybridMetrics.init (maxHistory : ℕ) : HybridMetrics :=
  { queries := [], max_history := maxHistory, total_cost := 0,
    query_count := 0, success_count := 0 }

/-- The Python slice `l[-n:]`.  For `n = 0` Python reads `l[-0:] = l[0:]`,
the whole list; for `n ≥ 1` it is the last `min n (length l)` elements. -/
def pySliceLast (n : ℕ) (l : List α) : List α :=
  if n = 0 then l else l.drop (l.length - n)

/-- `HybridMetrics.log_query`: append the metric, bump the counters, and
trim the list to its last `max_history` entries when it exceeds the
bound. -/
def logQuery (st : HybridMetrics) (m : QueryMetric) : HybridMetrics :=
  let qs := st.queries ++ [m]
  let qs := if st.max_history < qs.length then pySliceLast st.max_history qs else qs
  { queries := qs
    max_history := st.max_history
    total_cost := st.total_cost + m.estimated_cost
    query_count := st.query_count + 1
    success_count := st.success_count + (if m.success = true then 1 else 0) }

/-- Log a batch of metrics in order. -/
def logAll (st : HybridMetrics) (ms : List QueryMetric) : HybridMetrics :=
  ms.foldl logQuery st

/-- `p` is a character-wise leading segment of `l`. -/
def charsStartsWith (p : List Char) : List Char → Bool :=
  fun l =>
    match p, l with
    | [], _ => true
    | _ :: _, [] => false
    | a :: ps, b :: ls => a == b && charsStartsWith ps ls

/-- `p` occurs contiguously inside `l`. -/
def charsContains (p : List Char) : List Char → Bool
  | [] => charsStartsWith p []
  | b :: t => charsStartsWith p (b :: t) || charsContains p t

/-- The Python membership test `pat in s` on strings (substring
containment). -/
def pyIn (pat s : String) : Bool :=
  charsContains pat.toList s.toList

/-- One entry of the list returned by `get_recommendations`, reduced to
the observable parts the claims are about: the `type` tag and, for the
cost-optimization entry, the numeric dollar amount interpolated into its
`impact` string.  The prose `message`/`impact` strings are not
modelled. -/
structure Advisory where
  rtype : String
  savings : Option ℚ
deriving DecidableEq, Repr

/-- Python `max` over a list of rationals (`0` on the empty list, which
`get_recommendations` never reaches). -/
def maxListQ : List ℚ → ℚ
  | [] => 0
  | h :: t => t.foldl max h

/-- First-occurrence deduplication, matching Python dict key order. -/
def dedupFirst (l : List String) : List String :=
  l.foldl (fun acc b => if b ∈ acc then acc else acc ++ [b]) []

/-- `simple_queries` of `get_recommendations`: the stored metrics of
simple complexity. -/
def simpleQueries (st : HybridMetrics) : List QueryMetric :=
  st.queries.filter (fun q => q.complexity = "simple")

/-- `expensive_simple` of `get_recommendations`: the simple-complexity
metrics that used `claude_opus` or `claude_sonnet`. -/
def expensiveSimple (st : HybridMetrics) : List QueryMetric :=
  (simpleQueries st).filter
    (fun q => q.backend = "claude_opus" ∨ q.backend = "claude_sonnet")

/-- `iterative_api` of `get_recommendations`: metrics with more than one
iteration whose backend name contains `"claude"`. -/
def iterativeApi (st : HybridMetrics) : List QueryMetric :=
  st.queries.filter (fun q => q.iterations > 1 ∧ pyIn "claude" q.backend = true)

/-- `recent` of `get_recommendations`: the last 100 metrics (all of them
when fewer are stored). -/
def recentQueries (st : HybridMetrics) : List QueryMetric :=
  if 100 ≤ st.queries.length then pySliceLast 100 st.queries else st.queries

/-- `failure_rate` of `get_recommendations` over the recent window. -/
def failureRate (st : HybridMetrics) : ℚ :=
  (((recentQueries st).filter (fun q => q.success = false)).length : ℚ) /
    ((recentQueries st).length : ℚ)

/-- `avg_latency` of `get_recommendations` over the recent window. -/
def avgLatency (st : HybridMetrics) : ℚ :=
  ((recentQueries st).map (·.latency_ms)).sum / ((recentQueries st).length : ℚ)

/-- `cost_by_backend[b]` of `get_recommendations`: total estimated cost
of the stored metrics that used backend `b`. -/
def backendCost (st : HybridMetrics) (b : String) : ℚ :=
  ((st.queries.filter (fun q => q.backend = b)).map (·.estimated_cost)).sum

/-- The value of `max(cost_by_backend.items(), key=...)`: the largest
per-backend summed cost (the winning key feeds only the message
string). -/
def topBackendCost (st : HybridMetrics) : ℚ :=
  maxListQ ((dedupFirst (st.queries.map (·.backend))).map (backendCost st))

/-- The advisory list assembled by `get_recommendations` past the
10-sample gate, check by check and in source order: expensive simple
queries (appended when strictly more than 30% of the simple queries used
a premium backend, with 80% of that subset's summed cost as the impact
figure), iterative external-API queries, failure rate above 10% on the
recent window, average latency above 5000 ms (the slowest-backend
computation feeds only the elided message), and one backend exceeding 70%
of the running total cost.  Float literals `0.3`, `0.8`, `0.1`, `0.7`
become the rationals they denote. -/
def getRecommendationsBody (st : HybridMetrics) : List Advisory :=
  (if simpleQueries st ≠ [] ∧
      ((expensiveSimple st).length : ℚ) > ((simpleQueries st).length : ℚ) * (3/10) then
    [{ rtype := "cost_optimization"
       savings := some (((expensiveSimple st).map (·.estimated_cost)).sum * (4/5)) }]
  else []) ++
  (if iterativeApi st ≠ [] then [{ rtype := "data_privacy", savings := none }]
  else []) ++
  (if failureRate st > 1/10 then [{ rtype := "reliability", savings := none }]
  else []) ++
  (if avgLatency st > 5000 then [{ rtype := "performance", savings := none }]
  else []) ++
  (if st.total_cost > 0 ∧ topBackendCost st > st.total_cost * (7/10) then
    [{ rtype := "cost_distribution", savings := none }]
  else [])

/-- `HybridMetrics.get_recommendations`: the insufficient-data early
return below 10 samples, then the assembled checks, then the
everything-is-fine fallback entry when no check fired. -/
def getRecommendations (st : HybridMetrics) : List Advisory :=
  if st.queries.length < 10 then [{ rtype := "info", savings := none }]
  else if getRecommendationsBody st = [] then [{ rtype := "info", savings := none }]
  else getRecommendationsBody st

/-- `HybridRouter.execute`: route, dispatch to the adapter of the chosen
backend (the three `_execute_*` helpers collapse to one lookup; an
adapter raising becomes `Except.error`), and wrap the outcome.  The
`HybridMetrics` store is threaded through so that claims about metric
recording are statable; it comes back unchanged because the source's
`execute` never references any `HybridMetrics` instance. -/
def execute (r : HybridRouter) (adapters : Backend → Except String String)
    (ctx : QueryContext) (store : HybridMetrics) : ExecOutcome × HybridMetrics :=
  let decision := route r ctx
  match adapters decision.backend with
  | .ok res =>
      ({ success := true, result := some res, error := none,
         backend := decision.backend, reason := decision.reason,
         data_exposure := some decision.data_exposure,
         estimated_cost := some decision.estimated_cost }, store)
  | .error e =>
      ({ success := false, result := none, error := some e,
         backend := decision.backend, reason := decision.reason,
         data_exposure := none, estimated_cost := none }, store)

/-! ## Cost model -/

/-- Modelled from the spec sentence "Cost estimate = (max(token_estimate,
1)/1000) × fixed unit price for the chosen backend": the claimed cost
formula, written from the spec words to be compared with the source's
`estimateCost`. -/
def specClaimedCost (b : Backend) (tokens : Int) : ℚ :=
  ((max tokens 1 : Int) : ℚ) / 1000 * COSTS b

/-- C4 (counterexample): at a token estimate of 0 the code costs the query
as 1000 tokens, not as `max(0, 1) = 1` token, so the spec's formula is off
by a factor of 1000 there. -/
theorem estimateCost_ne_specClaimedCost_at_zero :
    estimateCost Backend.cortex 0 ≠ specClaimedCost Backend.cortex 0 := by
  norm_num [estimateCost, specClaimedCost, COSTS]

/-- C4 (amended): for token estimates ≥ 1 the estimated cost equals
`(max(token_estimate, 1)/1000) ×` the backend's fixed unit price, and a
token estimate of 0 is instead costed as 1000 tokens (one full unit
price). -/
theorem estimateCost_formula (b : Backend) (t : Int) :
    (1 ≤ t → estimateCost b t = specClaimedCost b t) ∧
    estimateCost b 0 = (1000 : ℚ) / 1000 * COSTS b := by
  constructor
  · intro ht
    have hne : t ≠ 0 := by omega
    have hmax : max t 1 = t := max_eq_left ht
    simp [estimateCost, specClaimedCost, hne, hmax]
  · simp [estimateCost]

/-- C4 (witness): the amended formula evaluated at backend `cortex` with
5 tokens. -/
theorem estimateCost_formula_witness :
    (1 : Int) ≤ 5 ∧ estimateCost Backend.cortex 5 = specClaimedCost Backend.cortex 5 :=
  ⟨by norm_num, (estimateCost_formula Backend.cortex 5).1 (by norm_num)⟩

/-- Every fixed unit price is nonnegative. -/
lemma COSTS_nonneg (b : Backend) : 0 ≤ COSTS b := by
  cases b <;> norm_num [COSTS]

/-- C5: a zero token estimate is costed exactly like 1000 tokens, and the
estimated cost is nonnegative for every nonnegative token estimate. -/
theorem estimateCost_zero_default_and_nonneg (b : Backend) (t : Int) (ht : 0 ≤ t) :
    estimateCost b 0 = estimateCost b 1000 ∧ 0 ≤ estimateCost b t := by
  constructor
  · simp [estimateCost]
  · unfold estimateCost
    apply mul_nonneg _ (COSTS_nonneg b)
    apply div_nonneg _ (by norm_num)
    split
    · norm_num
    · exact_mod_cast ht

/-- C5 (witness): evaluated at backend `mistral` with 7 tokens. -/
theorem estimateCost_zero_default_and_nonneg_witness :
    (0 : Int) ≤ 7 ∧
      (estimateCost Backend.mistral 0 = estimateCost Backend.mistral 1000 ∧
        0 ≤ estimateCost Backend.mistral 7) :=
  ⟨by norm_num, estimateCost_zero_default_and_nonneg Backend.mistral 7 (by norm_num)⟩

/-! ## Telemetry store: bounded FIFO retention -/

lemma pySliceLast_eq_drop (n : ℕ) (hn : 1 ≤ n) (l : List α) :
    pySliceLast n l = l.drop (l.length - n) := by
  unfold pySliceLast
  rw [if_neg (by omega)]

/-- Keeping the last `n` elements commutes with appending: trimming, then
appending, then trimming again is the same as appending and trimming
once. -/
lemma drop_last_seg_append (n : ℕ) (xs ys : List α) :
    (xs.drop (xs.length - n) ++ ys).drop
        ((xs.drop (xs.length - n) ++ ys).length - n)
      = (xs ++ ys).drop ((xs ++ ys).length - n) := by
  rcases le_or_lt xs.length n with h | h
  · have hk : xs.length - n = 0 := by omega
    simp [hk]
  · have hA : (xs.drop (xs.length - n)).length = n := by
      rw [List.length_drop]; omega
    rw [List.drop_append_eq_append_drop, List.drop_append_eq_append_drop,
      List.length_append, hA, List.length_append, List.drop_drop]
    congr 1 <;> (congr 1; omega)

/-- After logging any batch into a store whose retained list is already
the trimmed tail of some history `l`, the retained list is the trimmed
tail of the full history. -/
lemma logAll_queries (C : ℕ) (hC : 1 ≤ C) (ms : List QueryMetric) :
    ∀ (l : List QueryMetric) (tc : ℚ) (qc sc : ℕ),
      (logAll ⟨l.drop (l.length - C), C, tc, qc, sc⟩ ms).queries
        = (l ++ ms).drop ((l ++ ms).length - C) := by
  induction ms with
  | nil => intro l tc qc sc; simp [logAll]
  | cons m ms ih =>
    intro l tc qc sc
    have hstep :
        logQuery ⟨l.drop (l.length - C), C, tc, qc, sc⟩ m =
          ⟨(l ++ [m]).drop ((l ++ [m]).length - C), C, tc + m.estimated_cost,
            qc + 1, sc + (if m.success = true then 1 else 0)⟩ := by
      unfold logQuery
      simp only
      rw [← drop_last_seg_append C l [m]]
      split
      · rw [pySliceLast_eq_drop C hC]
      · rename_i hle
        have : (l.drop (l.length - C) ++ [m]).length - C = 0 := by omega
        rw [this, List.drop_zero]
    rw [logAll, List.foldl_cons, hstep]
    have := ih (l ++ [m]) (tc + m.estimated_cost) (qc + 1)
      (sc + (if m.success = true then 1 else 0))
    rw [logAll] at this
    rw [this, List.append_assoc]
    rfl

/-- C6: starting from an empty store of capacity `C ≥ 1`, after appending
`N > C` metrics the store holds exactly `C` entries, namely the last `C`
appended in insertion order, and the oldest retained entry is the
`(N − C + 1)`-th inserted (index `N − C` from zero). -/
theorem telemetry_fifo_eviction (C : ℕ) (hC : 1 ≤ C) (ms : List QueryMetric)
    (hN : C < ms.length) :
    (logAll (HybridMetrics.init C) ms).queries = ms.drop (ms.length - C) ∧
    (logAll (HybridMetrics.init C) ms).queries.length = C ∧
    (logAll (HybridMetrics.init C) ms).queries.head? = ms.get? (ms.length - C) := by
  have hq : (logAll (HybridMetrics.init C) ms).queries
      = ms.drop (ms.length - C) := by
    have := logAll_queries C hC ms [] 0 0 0
    simpa [HybridMetrics.init] using this
  refine ⟨hq, ?_, ?_⟩
  · rw [hq, List.length_drop]; omega
  · rw [hq, List.head?_drop, List.get?_eq_getElem?]

/-- C6 (witness): capacity 2, three metrics appended; the first is
evicted and the last two are retained in order. -/
theorem telemetry_fifo_eviction_witness :
    (logAll (HybridMetrics.init 2)
        [⟨"a", "internal", "simple", "cortex", true, 1, 100, 1⟩,
         ⟨"b", "internal", "simple", "mistral", true, 1, 100, 1⟩,
         ⟨"c", "internal", "simple", "claude_haiku", true, 1, 100, 1⟩]).queries
      = [⟨"b", "internal", "simple", "mistral", true, 1, 100, 1⟩,
         ⟨"c", "internal", "simple", "claude_haiku", true, 1, 100, 1⟩] := by
  have h := telemetry_fifo_eviction 2 (by norm_num)
    [⟨"a", "internal", "simple", "cortex", true, 1, 100, 1⟩,
     ⟨"b", "internal", "simple", "mistral", true, 1, 100, 1⟩,
     ⟨"c", "internal", "simple", "claude_haiku", true, 1, 100, 1⟩]
    (by simp)
  simpa using h.1

/-! ## Router invariants -/

lemma routeRules_backend_available (r : HybridRouter) (ctx : QueryContext)
    (hc : r.claude_available = true) :
    isBackendAvailable r (routeRules r ctx).backend = true := by
  unfold routeRules
  split_ifs <;> simp_all [isBackendAvailable]

/-- C2 (amended): whenever the Claude client is configured, the decision
returned by `route` names only a backend that is available at decision
time. -/
theorem route_backend_available (r : HybridRouter) (ctx : QueryContext)
    (hc : r.claude_available = true) :
    isBackendAvailable r (route r ctx).backend = true := by
  unfold route
  cases hp : ctx.user_preference with
  | none => exact routeRules_backend_available r ctx hc
  | some pref =>
      simp only
      split
      · rename_i hav
        simpa using hav
      · exact routeRules_backend_available r ctx hc

/-- C2 (witness): with every backend enabled, a concrete decision's
backend is available. -/
theorem route_backend_available_witness :
    (⟨true, true, true⟩ : HybridRouter).claude_available = true ∧
      isBackendAvailable ⟨true, true, true⟩
        (route ⟨true, true, true⟩
          ⟨"q", "other", .publicData, .moderate, false, 0, none⟩).backend = true :=
  ⟨rfl, route_backend_available ⟨true, true, true⟩
    ⟨"q", "other", .publicData, .moderate, false, 0, none⟩ rfl⟩

/-- C2 (counterexample): with no backend configured at all (no Cortex, no
Mistral, no Claude client), `route` still returns `claude_haiku`, a
backend that `_is_backend_available` reports as unavailable — the claim
fails for this availability configuration. -/
theorem route_names_unavailable_backend :
    (route ⟨false, false, false⟩
        ⟨"q", "other", .publicData, .simple, false, 0, none⟩).backend
      = Backend.claude_haiku ∧
    isBackendAvailable ⟨false, false, false⟩ Backend.claude_haiku = false := by
  constructor <;> decide

lemma getDataExposure_sensitive (b : Backend) (s : DataSensitivity)
    (hs : s = .confidential ∨ s = .restricted) :
    (getDataExposure b s = "full" → b = .cortex ∨ b = .mistral) ∧
    (b ≠ .cortex ∧ b ≠ .mistral → getDataExposure b s = "schema_only") := by
  unfold getDataExposure
  split_ifs <;> simp_all <;> tauto

lemma routeRules_sensitive_iteration_exposure (r : HybridRouter)
    (ctx : QueryContext)
    (hs : ctx.sensitivity = .confidential ∨ ctx.sensitivity = .restricted) :
    ((routeRules r ctx).data_exposure = "full" →
      (routeRules r ctx).backend = .cortex ∨ (routeRules r ctx).backend = .mistral) ∧
    ((routeRules r ctx).backend ≠ .cortex ∧ (routeRules r ctx).backend ≠ .mistral →
      (routeRules r ctx).data_exposure = "schema_only" ∨
        (routeRules r ctx).data_exposure = "aggregated") := by
  unfold routeRules
  split_ifs <;> simp_all

/-- C3: for a confidential or restricted context that requires iteration,
the decision's exposure is `"full"` only when the chosen backend is
full-data-capable (Cortex or Mistral), and a non-capable backend is never
paired with an exposure beyond `"schema_only"`/`"aggregated"`. -/
theorem route_sensitive_iteration_exposure (r : HybridRouter) (ctx : QueryContext)
    (hs : ctx.sensitivity = .confidential ∨ ctx.sensitivity = .restricted)
    (hi : ctx.requires_iteration = true) :
    ((route r ctx).data_exposure = "full" →
      (route r ctx).backend = .cortex ∨ (route r ctx).backend = .mistral) ∧
    ((route r ctx).backend ≠ .cortex ∧ (route r ctx).backend ≠ .mistral →
      (route r ctx).data_exposure = "schema_only" ∨
        (route r ctx).data_exposure = "aggregated") := by
  unfold route
  cases hp : ctx.user_preference with
  | none => exact routeRules_sensitive_iteration_exposure r ctx hs
  | some pref =>
      simp only
      split
      · have h := getDataExposure_sensitive pref ctx.sensitivity hs
        exact ⟨fun hfull => h.1 hfull, fun hcap => Or.inl (h.2 hcap)⟩
      · exact routeRules_sensitive_iteration_exposure r ctx hs

/-- C3 (witness): a concrete restricted, iterative context with only the
Claude client available: the backend is claude-tier and the exposure is
`"schema_only"`. -/
theorem route_sensitive_iteration_exposure_witness :
    ((⟨"q", "other", .restricted, .complex, true, 0, none⟩ : QueryContext).sensitivity
        = .confidential ∨
      (⟨"q", "other", .restricted, .complex, true, 0, none⟩ : QueryContext).sensitivity
        = .restricted) ∧
    ((route ⟨false, false, true⟩
        ⟨"q", "other", .restricted, .complex, true, 0, none⟩).backend ≠ .cortex ∧
      (route ⟨false, false, true⟩
        ⟨"q", "other", .restricted, .complex, true, 0, none⟩).backend ≠ .mistral →
      (route ⟨false, false, true⟩
          ⟨"q", "other", .restricted, .complex, true, 0, none⟩).data_exposure
          = "schema_only" ∨
        (route ⟨false, false, true⟩
          ⟨"q", "other", .restricted, .complex, true, 0, none⟩).data_exposure
          = "aggregated") :=
  ⟨Or.inr rfl,
    (route_sensitive_iteration_exposure ⟨false, false, true⟩
      ⟨"q", "other", .restricted, .complex, true, 0, none⟩ (Or.inr rfl) rfl).2⟩

/-- C9 (amended): an available explicit preference is honored verbatim:
the requested backend, the reason string `"User preference"` (the code
capitalizes the first word; the spec writes `"user preference"`), and the
generic exposure rule. -/
theorem route_honors_preference (r : HybridRouter) (ctx : QueryContext)
    (p : Backend) (hp : ctx.user_preference = some p)
    (hav : isBackendAvailable r p = true) :
    route r ctx =
      { backend := p
        reason := "User preference"
        estimated_cost := estimateCost p ctx.estimated_tokens
        data_exposure := getDataExposure p ctx.sensitivity } := by
  unfold route
  rw [hp]
  simp [hav]

/-- C9 (witness): the amended preference rule at a concrete context
requesting Mistral. -/
theorem route_honors_preference_witness :
    (⟨"q", "other", .internalData, .simple, false, 0,
        some .mistral⟩ : QueryContext).user_preference = some Backend.mistral ∧
      route ⟨true, true, true⟩
          ⟨"q", "other", .internalData, .simple, false, 0, some .mistral⟩ =
        { backend := Backend.mistral
          reason := "User preference"
          estimated_cost := estimateCost Backend.mistral 0
          data_exposure := getDataExposure Backend.mistral .internalData } :=
  ⟨rfl, route_honors_preference ⟨true, true, true⟩
    ⟨"q", "other", .internalData, .simple, false, 0, some .mistral⟩
    Backend.mistral rfl rfl⟩

/-- C9 (counterexample): the reason string the code produces is
`"User preference"`, not the spec's `"user preference"`. -/
theorem route_preference_reason_capitalized :
    (route ⟨true, true, true⟩
        ⟨"q", "other", .internalData, .simple, false, 0, some .cortex⟩).reason
      = "User preference" ∧
    "User preference" ≠ "user preference" := by
  constructor <;> decide

/-- C10: a confidential or restricted context with no explicit preference
is never routed to the premium remote tier (`claude_opus`), whatever the
availability configuration: the sensitivity rule returns before the
complexity rules. -/
theorem route_sensitive_never_opus (r : HybridRouter) (ctx : QueryContext)
    (hp : ctx.user_preference = none)
    (hs : ctx.sensitivity = .confidential ∨ ctx.sensitivity = .restricted) :
    (route r ctx).backend ≠ Backend.claude_opus := by
  unfold route
  rw [hp]
  unfold routeRules
  split_ifs <;> simp_all

/-- C10 (witness): a concrete restricted complex context with only the
Claude client available does not land on Opus. -/
theorem route_sensitive_never_opus_witness :
    (⟨"q", "other", .restricted, .complex, false, 0,
        none⟩ : QueryContext).user_preference = none ∧
      (route ⟨false, false, true⟩
          ⟨"q", "other", .restricted, .complex, false, 0, none⟩).backend
        ≠ Backend.claude_opus :=
  ⟨rfl, route_sensitive_never_opus ⟨false, false, true⟩
    ⟨"q", "other", .restricted, .complex, false, 0, none⟩ rfl (Or.inr rfl)⟩

/-! ## Recommendation engine -/

/-- C8 (amended): with fewer than 10 stored metrics,
`get_recommendations` returns exactly one advisory, typed `"info"` (the
need-more-data advisory), and nothing else. -/
theorem getRecommendations_insufficient (st : HybridMetrics)
    (h : st.queries.length < 10) :
    getRecommendations st = [{ rtype := "info", savings := none }] := by
  unfold getRecommendations
  rw [if_pos h]

/-- C8 (witness): the amended statement on a fresh empty store. -/
theorem getRecommendations_insufficient_witness :
    (HybridMetrics.init 10000).queries.length < 10 ∧
      getRecommendations (HybridMetrics.init 10000) =
        [{ rtype := "info", savings := none }] :=
  ⟨by decide, getRecommendations_insufficient (HybridMetrics.init 10000) (by decide)⟩

/-- C8 (counterexample): the single advisory returned below the
10-sample threshold carries the type tag `"info"`, not
`"insufficient data"`. -/
theorem getRecommendations_info_not_insufficient :
    (getRecommendations (HybridMetrics.init 10000)).map (·.rtype) = ["info"] ∧
    "info" ≠ "insufficient data" := by
  constructor <;> decide

/-- A simple-complexity metric logged against the premium Opus backend
with zero recorded cost and latency. -/
def opusSimpleMetric : QueryMetric :=
  ⟨"q", "internal", "simple", "claude_opus", true, 1, 0, 0⟩

/-- A simple-complexity metric logged against the cheap Haiku backend
with zero recorded cost and latency. -/
def haikuSimpleMetric : QueryMetric :=
  ⟨"q", "internal", "simple", "claude_haiku", true, 1, 0, 0⟩

/-- A store whose 20 simple-complexity metrics are exactly 30% premium
(6 of 20). -/
def stThirtyPercent : HybridMetrics :=
  { queries := List.replicate 6 opusSimpleMetric ++
      List.replicate 14 haikuSimpleMetric
    max_history := 10000, total_cost := 0, query_count := 20,
    success_count := 20 }

/-- A store whose 10 simple-complexity metrics are 40% premium
(4 of 10). -/
def stFortyPercent : HybridMetrics :=
  { queries := List.replicate 4 opusSimpleMetric ++
      List.replicate 6 haikuSimpleMetric
    max_history := 10000, total_cost := 0, query_count := 10,
    success_count := 10 }

/-- C7 (counterexample): a store with 20 metrics in which exactly 30% of
the simple-complexity entries used a premium backend — so the claim's
"at least 30%" threshold is met with equality — yet no
`cost_optimization` advisory is emitted, because the code requires the
share to be strictly greater than 30%. -/
theorem thirty_percent_no_cost_optimization :
    10 ≤ stThirtyPercent.queries.length ∧
    (expensiveSimple stThirtyPercent).length * 10
      = (simpleQueries stThirtyPercent).length * 3 ∧
    (getRecommendations stThirtyPercent).all
      (fun a => a.rtype != "cost_optimization") = true := by
  refine ⟨by decide, by decide, ?_⟩
  have h1 : ¬(simpleQueries stThirtyPercent ≠ [] ∧
      ((expensiveSimple stThirtyPercent).length : ℚ)
        > ((simpleQueries stThirtyPercent).length : ℚ) * (3/10)) := by
    rintro ⟨-, hb⟩
    have e6 : (expensiveSimple stThirtyPercent).length = 6 := by decide
    have s20 : (simpleQueries stThirtyPercent).length = 20 := by decide
    rw [e6, s20] at hb
    norm_num at hb
  have h2 : ¬(iterativeApi stThirtyPercent ≠ []) := by decide
  have h3 : ¬(failureRate stThirtyPercent > 1/10) := by
    have hz : failureRate stThirtyPercent = 0 := by
      unfold failureRate
      have hf : (recentQueries stThirtyPercent).filter
          (fun q => q.success = false) = [] := by decide
      rw [hf]
      norm_num
    rw [hz]
    norm_num
  have h4 : ¬(avgLatency stThirtyPercent > 5000) := by
    have hz : avgLatency stThirtyPercent = 0 := by
      unfold avgLatency
      have hm : (recentQueries stThirtyPercent).map (·.latency_ms)
          = List.replicate 20 0 := by decide
      rw [hm, List.sum_replicate]
      norm_num
    rw [hz]
    norm_num
  have h5 : ¬(stThirtyPercent.total_cost > 0 ∧
      topBackendCost stThirtyPercent > stThirtyPercent.total_cost * (7/10)) := by
    rintro ⟨hpos, -⟩
    have hz : stThirtyPercent.total_cost = 0 := rfl
    rw [hz] at hpos
    norm_num at hpos
  have hbody : getRecommendationsBody stThirtyPercent = [] := by
    unfold getRecommendationsBody
    rw [if_neg h1, if_neg h2, if_neg h3, if_neg h4, if_neg h5]
    rfl
  have hres : getRecommendations stThirtyPercent
      = [{ rtype := "info", savings := none }] := by
    unfold getRecommendations
    rw [if_neg (by decide), if_pos hbody]
  rw [hres]
  decide

/-- C7 (amended): given at least 10 samples, whenever strictly more than
30% of the simple-complexity metrics used a premium backend
(`claude_opus`/`claude_sonnet`), `get_recommendations` emits a
`cost_optimization` advisory whose impact figure is 80% of the summed
estimated cost of that premium-simple subset. -/
theorem getRecommendations_cost_optimization (st : HybridMetrics)
    (h10 : 10 ≤ st.queries.length)
    (hcond : ((expensiveSimple st).length : ℚ)
        > ((simpleQueries st).length : ℚ) * (3/10)) :
    ({ rtype := "cost_optimization"
       savings := some (((expensiveSimple st).map (·.estimated_cost)).sum * (4/5)) }
        : Advisory)
      ∈ getRecommendations st := by
  have hne : simpleQueries st ≠ [] := by
    intro h0
    have h1 : expensiveSimple st = [] := by
      unfold expensiveSimple
      rw [h0]
      rfl
    rw [h0, h1] at hcond
    norm_num at hcond
  have hcc : simpleQueries st ≠ [] ∧
      ((expensiveSimple st).length : ℚ)
        > ((simpleQueries st).length : ℚ) * (3/10) := ⟨hne, hcond⟩
  unfold getRecommendations
  rw [if_neg (by omega)]
  unfold getRecommendationsBody
  rw [if_pos hcc]
  simp

/-- C7 (witness): the amended statement on the 40%-premium store. -/
theorem getRecommendations_cost_optimization_witness :
    10 ≤ stFortyPercent.queries.length ∧
    ((expensiveSimple stFortyPercent).length : ℚ)
      > ((simpleQueries stFortyPercent).length : ℚ) * (3/10) ∧
    ({ rtype := "cost_optimization"
       savings := some (((expensiveSimple stFortyPercent).map
          (·.estimated_cost)).sum * (4/5)) } : Advisory)
      ∈ getRecommendations stFortyPercent := by
  have e4 : (expensiveSimple stFortyPercent).length = 4 := by decide
  have s10 : (simpleQueries stFortyPercent).length = 10 := by decide
  have hcond : ((expensiveSimple stFortyPercent).length : ℚ)
      > ((simpleQueries stFortyPercent).length : ℚ) * (3/10) := by
    rw [e4, s10]
    norm_num
  exact ⟨by decide, hcond,
    getRecommendations_cost_optimization stFortyPercent (by decide) hcond⟩

/-! ## Execute and the telemetry store -/

/-- C1 (amended): `execute` catches adapter failures and surfaces them as
a structured outcome whose `success` flag mirrors the adapter result, but
it never appends a `QueryMetric` to the Telemetry Store: the store is
returned unchanged on success and failure alike.  Metric recording only
happens through separate `HybridMetrics.log_query` calls. -/
theorem execute_leaves_store_unchanged (r : HybridRouter)
    (adapters : Backend → Except String String) (ctx : QueryContext)
    (store : HybridMetrics) :
    (execute r adapters ctx store).2 = store ∧
    (execute r adapters ctx store).1.success =
      (adapters (route r ctx).backend).isOk := by
  unfold execute
  cases h : adapters (route r ctx).backend <;> simp [h, Except.isOk, Except.toBool]

/-- C1 (counterexample): a failing adapter yields a `success = false`
outcome, yet the Telemetry Store still holds no `QueryMetric` at all
afterwards — nothing with `success = false` was recorded. -/
theorem execute_failure_records_no_metric :
    (execute ⟨true, true, true⟩ (fun _ => .error "boom")
        ⟨"q", "snowflake", .internalData, .simple, false, 0, none⟩
        (HybridMetrics.init 10000)).1.success = false ∧
    (execute ⟨true, true, true⟩ (fun _ => .error "boom")
        ⟨"q", "snowflake", .internalData, .simple, false, 0, none⟩
        (HybridMetrics.init 10000)).2.queries = [] := by
  constructor <;> rfl

end PowerBIHybrid
